import Mathlib

/-!
Verification of the MAVFTP client engine (mavftp.py): the frame codec, the
burst-read gap tracking and repair machinery, the pipelined write engine, and
the compact parameter blob decoder, embedded as pure functions over an
explicit engine state.  Wall-clock times are rationals passed explicitly to
each handler.  The synthetic packet-loss branches are guarded by the loss
settings exactly as in the source; all theorems below run with the loss
settings at 0, where the source draws no random number.
-/

/-- One MAVFTP frame (class FTP_OP).  `payload = []` models both Python `None`
and the empty byte string: `FTP_OP.pack` appends nothing in either case, and
`op_parse` always produces a byte string. -/
structure FTP_OP where
  seq : Nat
  session : Nat
  opcode : Nat
  size : Nat
  req_opcode : Nat
  burst_complete : Nat
  offset : Nat
  payload : List Nat
  deriving DecidableEq

/-- FTP_OP.pack: struct.pack("<HBBBBBBI", seq, session, opcode, size,
req_opcode, burst_complete, 0, offset) followed by the payload bytes.
struct.pack raises for a field out of range of its format; theorems about
`pack` carry those bounds as hypotheses, under which the `% 256` wraps below
are the identity. -/
def FTP_OP.pack (op : FTP_OP) : List Nat :=
  [op.seq % 256, op.seq / 256 % 256, op.session % 256, op.opcode % 256,
   op.size % 256, op.req_opcode % 256, op.burst_complete % 256, 0,
   op.offset % 256, op.offset / 256 % 256, op.offset / 65536 % 256,
   op.offset / 16777216 % 256] ++ op.payload

/-- MAVFTP.__send right-pads the packed frame with zero bytes to
HDR_Len + MAX_Payload = 251 bytes before handing it to the transport. -/
def send_buffer (op : FTP_OP) : List Nat :=
  let p := op.pack
  if p.length < 251 then p ++ List.replicate (251 - p.length) 0 else p

/-- MAVFTP.__op_parse: struct.unpack("<HBBBBBBI") of the first 12 bytes, then
payload = bytes[12:][:size].  On a buffer shorter than 12 bytes struct.unpack
raises struct.error, modelled as `none`. -/
def op_parse (buf : List Nat) : Option FTP_OP :=
  if buf.length < 12 then none
  else some
    { seq := buf.getD 0 0 + 256 * buf.getD 1 0
      session := buf.getD 2 0
      opcode := buf.getD 3 0
      size := buf.getD 4 0
      req_opcode := buf.getD 5 0
      burst_complete := buf.getD 6 0
      offset := buf.getD 8 0 + 256 * buf.getD 9 0 + 65536 * buf.getD 10 0 +
        16777216 * buf.getD 11 0
      payload := (buf.drop 12).take (buf.getD 4 0) }

/-- An incoming MAVLink message as seen by MAVFTP.__mavlink_packet. -/
structure MavMsg where
  mtype : String
  target_system : Nat
  target_component : Nat
  payload : List Nat
  deriving DecidableEq

/-- Outcome of the entry phase of MAVFTP.__mavlink_packet, up to and including
frame parsing: wrong message type (no-op), target filter (log and discard),
struct.error raised out of __op_parse (the exception propagates to the caller
and no engine state has been touched at that point), or a parsed frame that is
handed on to the per-req_opcode handlers. -/
inductive PacketOutcome where
  | ignoredType
  | discarded
  | parseError
  | parsed (op : FTP_OP)
  deriving DecidableEq

/-- Entry phase of MAVFTP.__mavlink_packet (type check, target filter, parse). -/
def mavlink_packet_route (source_system source_component : Nat) (m : MavMsg) :
    PacketOutcome :=
  if m.mtype ≠ "FILE_TRANSFER_PROTOCOL" then .ignoredType
  else if m.target_system ≠ source_system ∨ m.target_component ≠ source_component then
    .discarded
  else
    match op_parse m.payload with
    | none => .parseError
    | some op => .parsed op

/-- An io.BytesIO buffer, or a local file opened in binary mode: a byte vector
plus a cursor.  `write` at a position past the end zero-fills the hole, as
BytesIO does. -/
structure Sio where
  data : List Nat
  pos : Nat
  deriving DecidableEq

/-- f.seek(o). -/
def Sio.seek (f : Sio) (o : Nat) : Sio := { f with pos := o }

/-- f.write(b): overwrite at the cursor, zero-filling between the previous end
and the cursor if the cursor is past the end; the cursor ends after the bytes. -/
def Sio.write (f : Sio) (b : List Nat) : Sio :=
  let padded := f.data ++ List.replicate (f.pos - f.data.length) 0
  { data := padded.take f.pos ++ b ++ padded.drop (f.pos + b.length)
    pos := f.pos + b.length }

/-- f.read(n) from the cursor (used by the write engine on the local source). -/
def Sio.readBytes (f : Sio) (n : Nat) : List Nat :=
  (f.data.drop f.pos).take n

/-- Externally visible effects of the engine: outbound frames handed to the
transport, and user callback invocations (`None` arguments kept as separate
constructors). -/
inductive FTPEvent where
  | sentFrame (op : FTP_OP)
  | readCallback (data : List Nat)
  | readCallbackNone
  | readProgress (done total : Nat)
  | readProgressNone
  | putCallback (flen : Nat)
  | putCallbackNone
  | putProgress (v : ℚ)
  | putProgressNone
  deriving DecidableEq

/-- Python dict assignment d[k] = v on the gap-time map: update the entry in
place if the key is present (keeping its position, as dicts preserve insertion
order), else append a new entry. -/
def dictSet : List ((Nat × Nat) × ℚ) → (Nat × Nat) → ℚ → List ((Nat × Nat) × ℚ)
  | [], k, v => [(k, v)]
  | (k', v') :: rest, k, v =>
    if k' = k then (k, v) :: rest else (k', v') :: dictSet rest k v

/-- Python d.pop(k): remove the entry for k (keys are unique in a dict). -/
def dictPop : List ((Nat × Nat) × ℚ) → (Nat × Nat) → List ((Nat × Nat) × ℚ)
  | [], _ => []
  | (k', v') :: rest, k =>
    if k' = k then rest else (k', v') :: dictPop rest k

/-- Python d[k] lookup on the gap-time map. -/
def dlookup : List ((Nat × Nat) × ℚ) → (Nat × Nat) → Option ℚ
  | [], _ => none
  | (k', v') :: rest, k => if k' = k then some v' else dlookup rest k

/-- The gap-splitting loop of MAVFTP.__handle_burst_read (lines 416-425): cut
the byte range starting at `ofs` of length `len` into consecutive pieces of at
most `mr` bytes.  The source loop runs while the remaining length exceeds
`mr`; the engine guarantees `1 ≤ mr` (burst_size is clamped to 1..239), under
which the structural fuel `len` never runs out before the loop finishes. -/
def split_gaps_go : Nat → Nat → Nat → Nat → List (Nat × Nat)
  | 0, ofs, len, _ => [(ofs, len)]
  | fuel + 1, ofs, len, mr =>
    if len ≤ mr then [(ofs, len)]
    else (ofs, mr) :: split_gaps_go fuel (ofs + mr) (len - mr) mr

/-- Gap splitting with fuel instantiated. -/
def split_gaps (ofs len mr : Nat) : List (Nat × Nat) :=
  split_gaps_go len ofs len mr

/-- `covers start stop gl` holds when the ranges in `gl` are consecutive and
exactly partition the half-open interval [start, stop): each range begins
where the previous one ended, and the last one ends at `stop`.  In particular
the ranges are pairwise non-overlapping. -/
def covers : Nat → Nat → List (Nat × Nat) → Prop
  | start, stop, [] => start = stop
  | start, stop, (o, l) :: rest => o = start ∧ covers (start + l) stop rest

/-- The engine state: the mutable attributes of class MAVFTP that the protocol
logic reads or writes, plus the event trace.  Settings that only gate logging
(debug) or that are read only by unmodelled entry points are omitted.  The
fields mirror the constructor of MAVFTP. -/
structure MAVFTP where
  ftp_settings_pkt_loss_tx : Nat
  ftp_settings_max_backlog : Nat
  ftp_settings_write_size : Nat
  ftp_settings_write_qsize : Nat
  ftp_settings_retry_time : ℚ
  seq : Nat
  session : Nat
  last_op : Option FTP_OP
  fh : Option Sio
  filename : Option String
  callback : Bool
  callback_progress : Bool
  put_callback : Bool
  put_callback_progress : Bool
  read_gaps : List (Nat × Nat)
  read_gap_times : List ((Nat × Nat) × ℚ)
  last_gap_send : ℚ
  read_retries : Nat
  read_total : Nat
  duplicates : Nat
  last_burst_read : Option ℚ
  op_start : Option ℚ
  rtt : ℚ
  reached_eof : Bool
  backlog : Nat
  burst_size : Nat
  write_list : Option (Finset Nat)
  write_block_size : Nat
  write_acks : Nat
  write_total : Nat
  write_file_size : Nat
  write_idx : Nat
  write_recv_idx : Int
  write_pending : Int
  write_last_send : Option ℚ
  op_pending : Bool
  events : List FTPEvent
  deriving DecidableEq

/-- MAVFTP.__send: stamp op.seq from the engine counter, pack and hand the
251-byte buffer to the transport (recorded as a `sentFrame` event at the frame
level; `send_buffer` gives the bytes), advance seq mod 256, remember the frame
as last_op and mark an operation pending. -/
def MAVFTP.send (s : MAVFTP) (op : FTP_OP) : MAVFTP :=
  let op' := { op with seq := s.seq }
  { s with
    events := s.events ++ [FTPEvent.sentFrame op']
    seq := (s.seq + 1) % 256
    last_op := some op'
    op_pending := true }

/-- MAVFTP.__terminate_session: send a TerminateSession frame, drop the file
handle and name and write list, fire every still-set callback once with the
null sentinel, clear the gap structures and counters, and cycle the session
id mod 256. -/
def MAVFTP.terminate_session (s : MAVFTP) : MAVFTP :=
  let s := s.send { seq := s.seq, session := s.session, opcode := 1, size := 0,
                    req_opcode := 0, burst_complete := 0, offset := 0, payload := [] }
  let s := { s with fh := none, filename := none, write_list := none }
  let s := if s.callback then
      { s with events := s.events ++ [FTPEvent.readCallbackNone], callback := false }
    else s
  let s := if s.callback_progress then
      { s with events := s.events ++ [FTPEvent.readProgressNone], callback_progress := false }
    else s
  let s := if s.put_callback then
      { s with events := s.events ++ [FTPEvent.putCallbackNone], put_callback := false }
    else s
  let s := if s.put_callback_progress then
      { s with events := s.events ++ [FTPEvent.putProgressNone], put_callback_progress := false }
    else s
  { s with
    read_gaps := []
    read_total := 0
    read_gap_times := []
    last_burst_read := none
    session := (s.session + 1) % 256
    reached_eof := false
    backlog := 0
    duplicates := 0 }

/-- MAVFTP.__write_payload: seek the sink to op.offset, write the payload,
count the bytes and report read progress.  The source dereferences self.fh
unconditionally; every caller has already checked it is open, so the `none`
branch is unreachable. -/
def MAVFTP.write_payload (s : MAVFTP) (op : FTP_OP) : MAVFTP :=
  match s.fh with
  | none => s
  | some f =>
    let f' := (f.seek op.offset).write op.payload
    let s := { s with fh := some f', read_total := s.read_total + op.payload.length }
    if s.callback_progress then
      { s with events := s.events ++ [FTPEvent.readProgress s.read_total (s.read_total + 1)] }
    else s

/-- MAVFTP.__check_read_finished: when EOF has been reached and no gap is
outstanding, deliver the assembled buffer to the get callback (or log it),
terminate the session and clear op_pending; returns whether the download
completed.  The source reads self.fh.tell() first, which would raise if fh
were closed; that is unreachable while a get is in flight, and modelled as a
no-op. -/
def MAVFTP.check_read_finished (s : MAVFTP) : Bool × MAVFTP :=
  if s.reached_eof = true ∧ s.read_gaps = [] then
    match s.fh with
    | none => (false, s)
    | some f =>
      let s := if s.callback then
          { s with events := s.events ++ [FTPEvent.readCallback f.data], callback := false }
        else s
      (true, { s.terminate_session with op_pending := false })
  else (false, s)

/-- MAVFTP.__send_gap_read: send a ReadFile for the gap, rotate the gap to the
tail of the gap list, stamp its last-send time and the global last_gap_send
with the current time, and count one more outstanding backlog read. -/
def MAVFTP.send_gap_read (s : MAVFTP) (g : Nat × Nat) (now : ℚ) : MAVFTP :=
  let s := s.send { seq := s.seq, session := s.session, opcode := 5, size := g.2,
                    req_opcode := 0, burst_complete := 0, offset := g.1, payload := [] }
  { s with
    read_gaps := s.read_gaps.erase g ++ [g]
    last_gap_send := now
    read_gap_times := dictSet s.read_gap_times g now
    backlog := s.backlog + 1 }

/-- The pre-EOF loop of MAVFTP.__check_read_send: walk the gap-time entries in
dict order (a snapshot is passed in; __send_gap_read only updates values of
keys already visited, never adds or removes keys) and send each gap whose
last-send time is still 0. -/
def MAVFTP.send_zero_gaps (s : MAVFTP) (items : List ((Nat × Nat) × ℚ)) (now : ℚ) :
    MAVFTP :=
  match items with
  | [] => s
  | (g, v) :: rest =>
    if v = 0 then (s.send_gap_read g now).send_zero_gaps rest now
    else s.send_zero_gaps rest now

/-- MAVFTP.__check_read_send: before EOF, send every never-sent gap once.
After EOF, look at the head gap: expire it after retry_time (decrementing the
backlog with floor 0 and resetting its last-send time), return if it is still
pending, return if the (reached_eof-guarded) backlog cap fires or if the last
gap send was less than 50 ms ago, and otherwise send it. -/
def MAVFTP.check_read_send (s : MAVFTP) (now : ℚ) : MAVFTP :=
  match s.read_gaps with
  | [] => s
  | g :: _ =>
    let dt := now - (dlookup s.read_gap_times g).getD 0
    if s.reached_eof = false then s.send_zero_gaps s.read_gap_times now
    else
      let s :=
        if 0 < (dlookup s.read_gap_times g).getD 0 ∧ dt > s.ftp_settings_retry_time then
          { s with backlog := s.backlog - 1, read_gap_times := dictSet s.read_gap_times g 0 }
        else s
      if (dlookup s.read_gap_times g).getD 0 ≠ 0 then s
      else if s.reached_eof = false ∧ s.ftp_settings_max_backlog ≤ s.backlog then s
      else if now - s.last_gap_send < 1 / 20 then s
      else s.send_gap_read g now

/-- Lines 429-445 of MAVFTP.__handle_burst_read, reached after the payload has
been placed: on burst_complete, a non-zero size strictly below burst_size
means EOF (check for completion, else schedule gap repairs); otherwise resend
last_op with its offset moved to op.offset + op.size to continue the burst.
self.last_op can only be None before any frame was ever sent, which cannot
happen while a burst reply is being handled. -/
def MAVFTP.burst_complete_step (s : MAVFTP) (op : FTP_OP) (now : ℚ) : MAVFTP :=
  if op.burst_complete ≠ 0 then
    if 0 < op.size ∧ op.size < s.burst_size then
      let s := { s with reached_eof := true }
      let r := s.check_read_finished
      if r.1 then r.2 else r.2.check_read_send now
    else
      match s.last_op with
      | some lo => s.send { lo with offset := op.offset + op.size }
      | none => s
  else s

/-- MAVFTP.__handle_burst_read.  The synthetic TX-loss branch draws a random
number only when ftp_settings_pkt_loss_tx > 0; with the setting at 0 (as in
every theorem below) no draw happens, so the drop decision needs no oracle and
the branch is modelled as an unconditional drop guarded by the setting.  A
reply with fh or filename unset is stale or unexpected and only logged.  On a
Nack the source reads op.payload[0], which would raise on an empty payload;
theorems about the Nack path therefore require a non-empty payload. -/
def MAVFTP.handle_burst_read (s : MAVFTP) (op : FTP_OP) (now : ℚ) : MAVFTP :=
  if 0 < s.ftp_settings_pkt_loss_tx then s
  else
    match s.fh, s.filename with
    | some f, some _ =>
      let s := { s with last_burst_read := some now }
      let s := if s.burst_size < op.payload.length then { s with burst_size := 239 } else s
      if op.opcode = 128 then
        let ofs := f.pos
        if op.offset < ofs then
          let gap := (op.offset, op.payload.length)
          if gap ∈ s.read_gaps then
            let s := { s with
              read_gaps := s.read_gaps.erase gap
              read_gap_times := dictPop s.read_gap_times gap }
            let s := s.write_payload op
            let s := { s with fh := s.fh.map (fun (f' : Sio) => f'.seek ofs) }
            let r := s.check_read_finished
            if r.1 then r.2 else r.2.burst_complete_step op now
          else { s with duplicates := s.duplicates + 1 }
        else if ofs < op.offset then
          let gl := split_gaps ofs (op.offset - ofs) s.burst_size
          let s := { s with
            read_gaps := s.read_gaps ++ gl
            read_gap_times := gl.foldl (fun d g => dictSet d g 0) s.read_gap_times }
          (s.write_payload op).burst_complete_step op now
        else (s.write_payload op).burst_complete_step op now
      else if op.opcode = 129 then
        let ecode := op.payload.headD 0
        if ecode = 6 ∨ ecode = 0 then
          if s.reached_eof = false ∧ f.pos < op.offset then s
          else
            let s := { s with reached_eof := true }
            let r := s.check_read_finished
            if r.1 then r.2 else r.2.check_read_send now
        else s
      else s
    | _, _ => s

/-- MAVFTP.__handle_reply_read: the OP_ReadFile (gap fill) reply handler.  An
Ack whose (offset, size) matches a tracked gap closes it and writes the
payload with the cursor restored; with no matching gap, a short reply means
the remote file shrank (terminate), otherwise it is a duplicate.  A Nack
terminates.  Unless the download just completed, always end by calling
__check_read_send. -/
def MAVFTP.handle_reply_read (s : MAVFTP) (op : FTP_OP) (now : ℚ) : MAVFTP :=
  match s.fh, s.filename with
  | some f, some _ =>
    let s := { s with backlog := s.backlog - 1 }
    if op.opcode = 128 then
      let gap := (op.offset, op.size)
      if gap ∈ s.read_gaps then
        let s := { s with
          read_gaps := s.read_gaps.erase gap
          read_gap_times := dictPop s.read_gap_times gap }
        let ofs := f.pos
        let s := s.write_payload op
        let s := { s with fh := s.fh.map (fun (f' : Sio) => f'.seek ofs) }
        let r := s.check_read_finished
        if r.1 then r.2 else r.2.check_read_send now
      else if op.size < s.burst_size then (s.terminate_session).check_read_send now
      else ({ s with duplicates := s.duplicates + 1 }).check_read_send now
    else if op.opcode = 129 then (s.terminate_session).check_read_send now
    else s.check_read_send now
  | _, _ => s

/-- The round-robin scan of MAVFTP.__send_more_writes:
`while idx not in self.write_list: idx = (idx + 1) % self.write_total`.
The scan visits every residue mod write_total within write_total steps, so
with a non-empty write list of block indices below write_total the fuel
`write_total + 1` is never exhausted (with an empty list the source loop would
not terminate; __send_more_writes only scans when the list is non-empty). -/
def find_write_idx (wl : Finset Nat) (total : Nat) : Nat → Nat → Nat
  | idx, 0 => idx
  | idx, fuel + 1 => if idx ∈ wl then idx else find_write_idx wl total ((idx + 1) % total) fuel

/-- MAVFTP.__put_finished: report write progress 1.0 and hand the byte count
to the put callback, each at most once. -/
def MAVFTP.put_finished (s : MAVFTP) (flen : Nat) : MAVFTP :=
  let s := if s.put_callback_progress then
      { s with events := s.events ++ [FTPEvent.putProgress 1], put_callback_progress := false }
    else s
  if s.put_callback then
    { s with events := s.events ++ [FTPEvent.putCallback flen], put_callback := false }
  else s

/-- The send loop of MAVFTP.__send_more_writes (lines 595-607): n rounds of
pick the next un-acked block index round-robin, read its bytes from the local
source, send a WriteFile at offset idx * write_block_size, advance the cursor
and count it pending.  The write list and file handle are only read here; the
unreachable `none` cases (the caller checked both) return the state
unchanged. -/
def MAVFTP.write_loop (s : MAVFTP) (now : ℚ) : Nat → MAVFTP
  | 0 => s
  | n + 1 =>
    match s.write_list, s.fh with
    | some wl, some f =>
      let idx := find_write_idx wl s.write_total s.write_idx (s.write_total + 1)
      let ofs := idx * s.write_block_size
      let data := (f.seek ofs).readBytes s.write_block_size
      let f' := { f with pos := ofs + data.length }
      let s := { s with fh := some f' }
      let s := s.send { seq := s.seq, session := s.session, opcode := 7, size := data.length,
                        req_opcode := 0, burst_complete := 0, offset := ofs,
                        payload := data }
      let s := { s with
        write_idx := (idx + 1) % s.write_total
        write_pending := s.write_pending + 1
        write_last_send := some now }
      s.write_loop now n
    | _, _ => s

/-- MAVFTP.__send_more_writes: with an empty write list the put is complete
(fire the completion path and terminate).  Otherwise infer a lost ack if
nothing was sent for longer than max(min(10*rtt, 1), 0.2) seconds, then send
up to write_qsize - write_pending more blocks (never more than remain).
self.write_list is only None outside a put, where the source would raise. -/
def MAVFTP.send_more_writes (s : MAVFTP) (now : ℚ) : MAVFTP :=
  match s.write_list with
  | none => s
  | some wl =>
    if wl.card = 0 then
      let s := s.put_finished s.write_file_size
      let s := s.terminate_session
      { s with op_pending := false }
    else
      let s :=
        match s.write_last_send with
        | some t =>
          if max (min (10 * s.rtt) 1) (1 / 5) < now - t then
            { s with write_pending := max 0 (s.write_pending - 1) }
          else s
        | none => s
      let n : Int := min ((s.ftp_settings_write_qsize : Int) - s.write_pending) (wl.card : Int)
      s.write_loop now n.toNat

/-- MAVFTP.__handle_create_file_reply: an Ack starts the write pipeline; a
Nack (or a put no longer in progress) terminates. -/
def MAVFTP.handle_create_file_reply (s : MAVFTP) (op : FTP_OP) (now : ℚ) : MAVFTP :=
  match s.fh with
  | none => { s.terminate_session with op_pending := false }
  | some _ =>
    if op.opcode = 128 then s.send_more_writes now
    else { s.terminate_session with op_pending := false }

/-- The ack-reconciliation block of MAVFTP.__handle_write_reply (lines
622-630): idx = op.offset // write_block_size; count = (idx - write_recv_idx)
mod write_total counts the in-flight blocks proven complete (the server acks
in order); floor write_pending at 0, record idx as received, discard it from
the write list, count the ack and report fractional progress. -/
def MAVFTP.write_ack_update (s : MAVFTP) (op : FTP_OP) : MAVFTP :=
  let idx : Nat := op.offset / s.write_block_size
  let count : Int := ((idx : Int) - s.write_recv_idx) % (s.write_total : Int)
  let s := { s with
    write_pending := max 0 (s.write_pending - count)
    write_recv_idx := (idx : Int)
    write_list := s.write_list.map (fun (wl : Finset Nat) => wl.erase idx)
    write_acks := s.write_acks + 1 }
  if s.put_callback_progress then
    { s with events := s.events ++
        [FTPEvent.putProgress ((s.write_acks : ℚ) / (s.write_total : ℚ))] }
  else s

/-- MAVFTP.__handle_write_reply: terminate on a lost handle or a Nack,
otherwise reconcile the ack and send more writes. -/
def MAVFTP.handle_write_reply (s : MAVFTP) (op : FTP_OP) (now : ℚ) : MAVFTP :=
  match s.fh with
  | none => s.terminate_session
  | some _ =>
    if op.opcode = 128 then (s.write_ack_update op).send_more_writes now
    else s.terminate_session

/-- os.path.basename for the POSIX paths the source handles (the part after
the last slash, computed on the character list). -/
def os_path_basename (p : String) : String :=
  String.mk ((p.data.splitOn '/').getLastD [])

/-- bytearray(name, 'ascii'). -/
def enc_ascii (nm : String) : List Nat :=
  nm.toUTF8.toList.map (fun b => b.toNat)

/-- MAVFTP.cmd_put: open the local source (its contents are passed in),
resolve the remote name (append the local basename when the remote ends in
a slash), measure the file, carve it into write_block_size blocks, reset the
write pipeline and send CreateFile.  A put already in progress is refused. -/
def MAVFTP.cmd_put (s : MAVFTP) (fname : String) (remote : Option String)
    (contents : List Nat) (cb pcb : Bool) (now : ℚ) : MAVFTP :=
  if s.write_list ≠ none then s
  else
    let filename := match remote with
      | some r => r
      | none => os_path_basename fname
    let filename := if filename.data.getLast? == some '/' then
        filename ++ os_path_basename fname
      else filename
    let file_size := contents.length
    let write_blockcount :=
      file_size / s.ftp_settings_write_size +
        (if file_size % s.ftp_settings_write_size ≠ 0 then 1 else 0)
    let s := { s with
      fh := some { data := contents, pos := 0 }
      filename := some filename
      write_block_size := s.ftp_settings_write_size
      write_file_size := file_size
      write_list := some (Finset.range write_blockcount)
      write_acks := 0
      write_total := write_blockcount
      write_idx := 0
      write_recv_idx := -1
      write_pending := 0
      write_last_send := none
      put_callback := cb
      put_callback_progress := pcb
      read_retries := 0
      op_start := some now }
    s.send { seq := s.seq, session := s.session, opcode := 6,
             size := (enc_ascii filename).length, req_opcode := 0, burst_complete := 0,
             offset := 0, payload := enc_ascii filename }

/-- One decoded parameter entry, as appended by ParamData.add_param /
add_default: the name bytes, the raw little-endian bytes of the value (one
fixed-size struct field; byte equality is object equality of the unpacked
Python number, since the code hands one unpacked value around by reference)
and the 4-bit type tag. -/
structure PEntry where
  name : List Nat
  value : List Nat
  ptype : Nat
  deriving DecidableEq

/-- Class ParamData: the params list plus the defaults list, which stays
`none` until the first add_default call. -/
structure ParamData where
  params : List PEntry
  defaults : Option (List PEntry)
  deriving DecidableEq

def ParamData.add_param (pd : ParamData) (n v : List Nat) (t : Nat) : ParamData :=
  { pd with params := pd.params ++ [{ name := n, value := v, ptype := t }] }

def ParamData.add_default (pd : ParamData) (n v : List Nat) (t : Nat) : ParamData :=
  { pd with defaults := some (pd.defaults.getD [] ++ [{ name := n, value := v, ptype := t }]) }

/-- The data_types table of ftp_param_decode: type tag to value byte length
(1=i8, 2=i16, 3=i32, 4=f32); an unknown tag is a decode error. -/
def type_len_of : Nat → Option Nat
  | 1 => some 1
  | 2 => some 2
  | 3 => some 4
  | 4 => some 4
  | _ => none

/-- The leading-pad skip of the record loop: drop 0x00 bytes. -/
def skip_pads : List Nat → List Nat
  | [] => []
  | b :: rest => if b = 0 then skip_pads rest else b :: rest

/-- The record loop of MAVFTP.ftp_param_decode.  Each iteration consumes at
least 4 bytes of the remaining buffer, so the structural fuel (initially the
buffer length) never runs out before the buffer does; `none` models both the
explicit error returns (bad type) and a struct.error raised by unpacking a
truncated value field or record header. -/
def param_decode_go (wd : Bool) : Nat → List Nat → List Nat → ParamData → Nat →
    Option (ParamData × Nat)
  | 0, data, _, pd, count => if skip_pads data = [] then some (pd, count) else none
  | fuel + 1, data, last_name, pd, count =>
    match skip_pads data with
    | [] => some (pd, count)
    | [_] => none
    | p0 :: p1 :: tail =>
      let flags := (p0 >>> 4) &&& 0x0F
      let has_default := wd && decide ((flags &&& 1) ≠ 0)
      let ptype := p0 &&& 0x0F
      match type_len_of ptype with
      | none => none
      | some type_len =>
        let default_len := if has_default then type_len else 0
        let name_len := ((p1 >>> 4) &&& 0x0F) + 1
        let common_len := p1 &&& 0x0F
        let name := last_name.take common_len ++ tail.take name_len
        let vdata := (tail.drop name_len).take (type_len + default_len)
        if vdata.length ≠ type_len + default_len then none
        else
          let rest := tail.drop (name_len + type_len + default_len)
          let pd :=
            if wd then
              if has_default then
                (pd.add_param name (vdata.take type_len) ptype).add_default name
                  (vdata.drop type_len) ptype
              else (pd.add_param name vdata ptype).add_default name vdata ptype
            else pd.add_param name vdata ptype
          param_decode_go wd fuel rest name pd (count + 1)

/-- MAVFTP.ftp_param_decode: check the 6-byte header (magic 0x671B for values
only, 0x671C for values with defaults, and the total parameter count), run the
record loop, and reject a count mismatch. -/
def ftp_param_decode (data : List Nat) : Option ParamData :=
  if data.length < 6 then none
  else
    let magic2 := data.getD 0 0 + 256 * data.getD 1 0
    let total_params := data.getD 4 0 + 256 * data.getD 5 0
    if magic2 ≠ 0x671B ∧ magic2 ≠ 0x671C then none
    else
      let wd := decide (magic2 = 0x671C)
      let body := data.drop 6
      match param_decode_go wd body.length body [] { params := [], defaults := none } 0 with
      | none => none
      | some (pd, count) => if count ≠ total_params then none else some pd

/-- Specification-side ghost of the record loop: the per-record has_default
flags, in record order, following exactly the control flow of
`param_decode_go` (the error continuations are irrelevant: the ghost is only
read at inputs where the decode succeeds). -/
def param_decode_flags_go (wd : Bool) : Nat → List Nat → List Bool
  | 0, _ => []
  | fuel + 1, data =>
    match skip_pads data with
    | [] => []
    | [_] => []
    | p0 :: p1 :: tail =>
      let flags := (p0 >>> 4) &&& 0x0F
      let has_default := wd && decide ((flags &&& 1) ≠ 0)
      let ptype := p0 &&& 0x0F
      match type_len_of ptype with
      | none => []
      | some type_len =>
        let default_len := if has_default then type_len else 0
        let name_len := ((p1 >>> 4) &&& 0x0F) + 1
        let rest := tail.drop (name_len + type_len + default_len)
        has_default :: param_decode_flags_go wd fuel rest

/-- Ghost has_default flags for a whole buffer, mirroring ftp_param_decode's
header handling. -/
def ftp_param_decode_flags (data : List Nat) : List Bool :=
  if data.length < 6 then []
  else
    param_decode_flags_go (decide (data.getD 0 0 + 256 * data.getD 1 0 = 0x671C))
      (data.drop 6).length (data.drop 6)

/-- Three lists in lockstep: the params suffix, the defaults suffix and the
has_default flags; names and type tags agree pointwise, and wherever the flag
is clear the values agree too. -/
def parallelWith : List PEntry → List PEntry → List Bool → Prop
  | [], [], _ => True
  | p :: ps, q :: qs, b :: bs =>
    p.name = q.name ∧ p.ptype = q.ptype ∧ (b = false → p.value = q.value) ∧
      parallelWith ps qs bs
  | _, _, _ => False

/-- A fully concrete engine state matching the MAVFTP constructor defaults
(transport identifiers aside), used as the base of the concrete witnesses. -/
def baseState : MAVFTP :=
  { ftp_settings_pkt_loss_tx := 0
    ftp_settings_max_backlog := 5
    ftp_settings_write_size := 80
    ftp_settings_write_qsize := 5
    ftp_settings_retry_time := 1 / 2
    seq := 0
    session := 0
    last_op := none
    fh := none
    filename := none
    callback := false
    callback_progress := false
    put_callback := false
    put_callback_progress := false
    read_gaps := []
    read_gap_times := []
    last_gap_send := 0
    read_retries := 0
    read_total := 0
    duplicates := 0
    last_burst_read := none
    op_start := none
    rtt := 1 / 2
    reached_eof := false
    backlog := 0
    burst_size := 80
    write_list := none
    write_block_size := 0
    write_acks := 0
    write_total := 0
    write_file_size := 0
    write_idx := 0
    write_recv_idx := -1
    write_pending := 0
    write_last_send := none
    op_pending := false
    events := [] }

set_option maxRecDepth 10000

def burstReqOp : FTP_OP :=
  { seq := 0, session := 0, opcode := 15, size := 80, req_opcode := 0,
    burst_complete := 0, offset := 0, payload := [] }

def roundtripOp : FTP_OP :=
  { seq := 300, session := 7, opcode := 128, size := 3, req_opcode := 15,
    burst_complete := 1, offset := 70000, payload := [10, 20, 30] }


/-- A FILE_TRANSFER_PROTOCOL message addressed to the engine whose payload is
only 3 bytes long. -/
def shortMsg : MavMsg :=
  { mtype := "FILE_TRANSFER_PROTOCOL", target_system := 250, target_component := 1,
    payload := [1, 2, 3] }

/-- A post-EOF read state with one never-sent gap and a backlog already at the
configured max_backlog of 5. -/
def backlogState : MAVFTP :=
  { baseState with
    fh := some { data := List.replicate 100 1, pos := 100 }
    filename := some "log.bin"
    reached_eof := true
    read_gaps := [(0, 80)]
    read_gap_times := [((0, 80), 0)]
    backlog := 5 }

/-- A get in progress with no tracked gaps. -/
def dupAckState : MAVFTP :=
  { baseState with
    fh := some { data := [], pos := 0 }
    filename := some "f.txt"
    session := 3 }

/-- A ReadFile Ack of 10 bytes (less than the burst size 80) matching no
tracked gap. -/
def dupAckOp : FTP_OP :=
  { seq := 1, session := 3, opcode := 128, size := 10, req_opcode := 5,
    burst_complete := 0, offset := 0, payload := List.replicate 10 1 }

/-- A mid-burst get: a 160-byte sink fully written, one 40-byte gap tracked at
offset 40, the last burst request remembered as last_op. -/
def eofBurstState : MAVFTP :=
  { baseState with
    fh := some { data := List.replicate 160 7, pos := 160 }
    filename := some "log.bin"
    last_op := some { seq := 9, session := 0, opcode := 15, size := 80, req_opcode := 0,
                      burst_complete := 0, offset := 80, payload := [] }
    seq := 10
    read_gaps := [(40, 40)]
    read_gap_times := [((40, 40), 0)] }

def eofBurstOp : FTP_OP :=
  { seq := 10, session := 0, opcode := 128, size := 40, req_opcode := 15,
    burst_complete := 1, offset := 160, payload := List.replicate 40 7 }

def contBurstOp : FTP_OP :=
  { seq := 10, session := 0, opcode := 128, size := 80, req_opcode := 15,
    burst_complete := 1, offset := 160, payload := List.replicate 80 7 }

/-- A get mid-flight: sink at position 80 with one tracked gap and no events
recorded yet. -/
def nackState : MAVFTP :=
  { baseState with
    fh := some { data := List.replicate 80 3, pos := 80 }
    filename := some "data.bin"
    read_gaps := [(0, 40)]
    read_gap_times := [((0, 40), 0)] }

/-- A Nack with error code EndOfFile at the current position. -/
def nackOp : FTP_OP :=
  { seq := 4, session := 0, opcode := 129, size := 1, req_opcode := 15,
    burst_complete := 0, offset := 80, payload := [6] }

/-- A Nack with error code EndOfFile whose offset is past the sink position:
the tail of the burst was lost. -/
def nackLostOp : FTP_OP :=
  { seq := 4, session := 0, opcode := 129, size := 1, req_opcode := 15,
    burst_complete := 0, offset := 500, payload := [6] }

/-- A get with the sink at position 50 and one tracked gap at (0, 40). -/
def dupBurstState : MAVFTP :=
  { baseState with
    fh := some { data := List.replicate 50 2, pos := 50 }
    filename := some "x.bin"
    read_gaps := [(0, 40)]
    read_gap_times := [((0, 40), 0)] }

/-- A burst Ack at an earlier offset matching no tracked gap (a duplicate). -/
def dupBurstOp : FTP_OP :=
  { seq := 2, session := 0, opcode := 128, size := 5, req_opcode := 15,
    burst_complete := 0, offset := 10, payload := List.replicate 5 1 }

/-- A full-size ReadFile Ack matching no tracked gap (a duplicate fill). -/
def dupReadOp : FTP_OP :=
  { seq := 2, session := 3, opcode := 128, size := 80, req_opcode := 5,
    burst_complete := 0, offset := 0, payload := List.replicate 80 1 }

/-- A put in flight: a 250-byte source carved into four 80-byte blocks, all
four unacked and in flight. -/
def putState : MAVFTP :=
  { baseState with
    fh := some { data := List.replicate 250 9, pos := 240 }
    filename := some "a.bin"
    put_callback := true
    put_callback_progress := true
    write_list := some {0, 1, 2, 3}
    write_block_size := 80
    write_total := 4
    write_file_size := 250
    write_recv_idx := -1
    write_pending := 4
    write_acks := 0 }

/-- A WriteFile Ack for the block at offset 80 (block index 1). -/
def writeAckOp : FTP_OP :=
  { seq := 6, session := 0, opcode := 128, size := 0, req_opcode := 7,
    burst_complete := 0, offset := 80, payload := [] }

/-- A get whose sink is fully written to position 80, about to receive a
burst packet that jumped forward to offset 250. -/
def jumpState : MAVFTP :=
  { baseState with
    fh := some { data := List.replicate 80 5, pos := 80 }
    filename := some "j.bin" }

def jumpOp : FTP_OP :=
  { seq := 3, session := 0, opcode := 128, size := 70, req_opcode := 15,
    burst_complete := 0, offset := 250, payload := List.replicate 70 6 }

/-- The CreateFile Ack for an empty put. -/
def createAckOp : FTP_OP :=
  { seq := 1, session := 0, opcode := 128, size := 0, req_opcode := 6,
    burst_complete := 0, offset := 0, payload := [] }

/-- A parameter blob with magic 0x671C: one f32 parameter "ABC" = 1.0 with
has_default clear, so the decoder emits the same bytes as value and default. -/
def paramBlob : List Nat :=
  [0x1C, 0x67, 1, 0, 1, 0, 0x04, 0x20, 65, 66, 67, 0, 0, 128, 63]

def paramBlobDecoded : ParamData :=
  { params := [{ name := [65, 66, 67], value := [0, 0, 128, 63], ptype := 4 }]
    defaults := some [{ name := [65, 66, 67], value := [0, 0, 128, 63], ptype := 4 }] }

/-!
The theorems.  The rational arithmetic of the time model is unsealed so that
concrete witnesses evaluate inside the kernel.
-/

attribute [local semireducible] Rat.sub Rat.add Rat.mul Rat.inv

theorem send_buffer_eq (op : FTP_OP) (h : op.pack.length ≤ 251) :
    send_buffer op = op.pack ++ List.replicate (251 - op.pack.length) 0 := by
  unfold send_buffer
  by_cases h' : op.pack.length < 251
  · simp [h']
  · have h0 : op.pack.length = 251 := by omega
    simp [h', h0]

theorem op_parse_cons (b0 b1 b2 b3 b4 b5 b6 b7 b8 b9 b10 b11 : Nat) (rest : List Nat) :
    op_parse (b0 :: b1 :: b2 :: b3 :: b4 :: b5 :: b6 :: b7 :: b8 :: b9 :: b10 :: b11 :: rest) =
      some { seq := b0 + 256 * b1, session := b2, opcode := b3, size := b4,
             req_opcode := b5, burst_complete := b6,
             offset := b8 + 256 * b9 + 65536 * b10 + 16777216 * b11,
             payload := rest.take b4 } := by
  unfold op_parse
  rw [if_neg (by simp)]
  rfl

/-- C1 (amended): every frame whose payload has at most 239 bytes transmits
as exactly 251 bytes, regardless of its other fields.  For every such frame
whose header fields are in range for their struct formats, re-parsing the
buffer reproduces seq, session, opcode, size, req_opcode, burst_complete and
offset exactly, and yields as payload the first `size` bytes of the payload
followed by the zero padding; hence the payload round-trips exactly when the
size field equals the payload length, while a frame with an empty payload and
a size field of at most 239 (as the engine's BurstReadFile and ReadFile
requests are) re-parses with a payload of `size` zero bytes. -/
theorem pack_unpack_roundtrip_amended :
    (∀ op : FTP_OP, op.payload.length ≤ 239 → (send_buffer op).length = 251) ∧
    (∀ op : FTP_OP, op.payload.length ≤ 239 → op.seq < 65536 → op.session < 256 →
      op.opcode < 256 → op.size < 256 → op.req_opcode < 256 → op.burst_complete < 256 →
      op.offset < 4294967296 →
      op_parse (send_buffer op) =
        some { op with payload :=
          (op.payload ++ List.replicate (239 - op.payload.length) 0).take op.size } ∧
      (op.size = op.payload.length → op_parse (send_buffer op) = some op) ∧
      (op.payload = [] → op.size ≤ 239 →
        op_parse (send_buffer op) =
          some { op with payload := List.replicate op.size 0 })) := by
  constructor
  · intro op hl
    have hp : op.pack.length = 12 + op.payload.length := by
      simp [FTP_OP.pack]; omega
    rw [send_buffer_eq op (by omega)]
    simp [hp]
    omega
  · intro op hl hseq hsess hopc hsz hreq hbc hoff
    have hp : op.pack.length = 12 + op.payload.length := by
      simp [FTP_OP.pack]; omega
    have hmain : op_parse (send_buffer op) =
        some { op with payload :=
          (op.payload ++ List.replicate (239 - op.payload.length) 0).take op.size } := by
      rw [send_buffer_eq op (by omega)]
      have hrep : 251 - op.pack.length = 239 - op.payload.length := by omega
      rw [hrep]
      obtain ⟨sq, ss, oc, sz, ro, bc, off, pl⟩ := op
      dsimp only at hl hseq hsess hopc hsz hreq hbc hoff ⊢
      simp only [FTP_OP.pack, List.cons_append, List.nil_append]
      rw [op_parse_cons]
      simp only [Option.some.injEq, FTP_OP.mk.injEq]
      refine ⟨by omega, by omega, by omega, by omega, by omega, by omega, by omega, ?_⟩
      rw [Nat.mod_eq_of_lt hsz]
    refine ⟨hmain, ?_, ?_⟩
    · intro hszlen
      rw [hmain, hszlen, List.take_left, ← hszlen]
    · intro hpl hsz239
      rw [hmain, hpl]
      simp only [List.nil_append, Nat.sub_zero, List.length_nil, List.take_replicate,
        Nat.min_eq_left hsz239]

theorem pack_unpack_roundtrip_amended_witness :
    (burstReqOp.payload.length ≤ 239 ∧ roundtripOp.payload.length ≤ 239 ∧
      roundtripOp.size = roundtripOp.payload.length ∧ burstReqOp.payload = [] ∧
      burstReqOp.size ≤ 239) ∧
    (send_buffer burstReqOp).length = 251 ∧
    op_parse (send_buffer roundtripOp) = some roundtripOp ∧
    op_parse (send_buffer burstReqOp) =
      some { burstReqOp with payload := List.replicate burstReqOp.size 0 } :=
  ⟨by decide,
    pack_unpack_roundtrip_amended.1 burstReqOp (by decide),
    (pack_unpack_roundtrip_amended.2 roundtripOp (by decide) (by decide) (by decide)
      (by decide) (by decide) (by decide) (by decide) (by decide)).2.1 (by decide),
    (pack_unpack_roundtrip_amended.2 burstReqOp (by decide) (by decide) (by decide)
      (by decide) (by decide) (by decide) (by decide) (by decide)).2.2 (by decide)
      (by decide)⟩

theorem pack_unpack_payload_mismatch :
    op_parse (send_buffer burstReqOp) ≠ some burstReqOp := by decide

/-- C8 (counterexample): a FILE_TRANSFER_PROTOCOL message addressed to this
engine with a 3-byte payload is not silently discarded: __op_parse's
struct.unpack("<HBBBBBBI") raises struct.error, which __mavlink_packet does
not catch. -/
theorem short_frame_raises_parse_error :
    mavlink_packet_route 250 1 shortMsg = PacketOutcome.parseError ∧
      mavlink_packet_route 250 1 shortMsg ≠ PacketOutcome.discarded := by decide

/-- C8 (amended): every FILE_TRANSFER_PROTOCOL message addressed to the
engine whose payload buffer is shorter than 12 bytes makes the header unpack
in __op_parse raise struct.error; the exception propagates out of packet
handling, and the engine state is untouched only because the parse precedes
every state update. -/
theorem short_frame_parse_error_amended (src_sys src_comp : Nat) (m : MavMsg)
    (ht : m.mtype = "FILE_TRANSFER_PROTOCOL")
    (hs : m.target_system = src_sys) (hc : m.target_component = src_comp)
    (hlen : m.payload.length < 12) :
    mavlink_packet_route src_sys src_comp m = PacketOutcome.parseError := by
  simp [mavlink_packet_route, ht, hs, hc, op_parse, hlen]

theorem short_frame_parse_error_amended_witness :
    (shortMsg.mtype = "FILE_TRANSFER_PROTOCOL" ∧ shortMsg.target_system = 250 ∧
      shortMsg.target_component = 1 ∧ shortMsg.payload.length < 12) ∧
    mavlink_packet_route 250 1 shortMsg = PacketOutcome.parseError :=
  ⟨by decide, short_frame_parse_error_amended 250 1 shortMsg (by decide) (by decide)
    (by decide) (by decide)⟩

/-- C4 (the code evaluated at the failing input): with reached_eof true, the
head gap never sent, and backlog = max_backlog = 5, __check_read_send still
sends the gap read and pushes the backlog to 6.  The guard of line 824 is
`not self.reached_eof and self.backlog >= self.ftp_settings_max_backlog`, and
the only path that reaches it has reached_eof true (the function returns at
line 815 otherwise), so the max_backlog cap can never fire and the backlog is
not bounded by it, contrary to the spec and to the comment and the
max_backlog setting in the source. -/
theorem max_backlog_guard_dead :
    (backlogState.check_read_send 1).backlog = 6 ∧
      (backlogState.check_read_send 1).events =
        [FTPEvent.sentFrame { seq := 0, session := 0, opcode := 5, size := 80,
                              req_opcode := 0, burst_complete := 0, offset := 0,
                              payload := [] }] := by decide

/-- C5 (counterexample): a ReadFile Ack matching no tracked gap whose size is
below burst_size is not a duplicate no-op: the handler concludes the remote
file shrank and terminates the session (session 3 becomes 4, the sink handle
is dropped) without touching the duplicates counter. -/
theorem nongap_readfile_ack_terminates_session :
    (dupAckState.handle_reply_read dupAckOp 1).session = 4 ∧
      (dupAckState.handle_reply_read dupAckOp 1).fh = none ∧
      (dupAckState.handle_reply_read dupAckOp 1).duplicates = 0 := by decide


theorem send_reached_eof (s : MAVFTP) (op : FTP_OP) :
    (s.send op).reached_eof = s.reached_eof := rfl

theorem send_gap_read_reached_eof (s : MAVFTP) (g : Nat × Nat) (now : ℚ) :
    (s.send_gap_read g now).reached_eof = s.reached_eof := rfl

theorem send_zero_gaps_reached_eof (items : List ((Nat × Nat) × ℚ)) (s : MAVFTP) (now : ℚ) :
    (s.send_zero_gaps items now).reached_eof = s.reached_eof := by
  induction items generalizing s with
  | nil => rfl
  | cons e rest ih =>
    obtain ⟨g, v⟩ := e
    simp only [MAVFTP.send_zero_gaps]
    by_cases hv : v = 0
    · rw [if_pos hv, ih, send_gap_read_reached_eof]
    · rw [if_neg hv, ih]

theorem check_read_send_reached_eof (s : MAVFTP) (now : ℚ) :
    (s.check_read_send now).reached_eof = s.reached_eof := by
  unfold MAVFTP.check_read_send
  split
  · rfl
  · dsimp only
    split
    · exact send_zero_gaps_reached_eof _ _ _
    · repeat' split
      all_goals rfl

theorem send_no_delivery {s : MAVFTP} {op : FTP_OP} {d : List Nat}
    (h : FTPEvent.readCallback d ∈ (s.send op).events) :
    FTPEvent.readCallback d ∈ s.events := by
  simp only [MAVFTP.send, List.mem_append, List.mem_singleton] at h
  rcases h with h | h
  · exact h
  · exact FTPEvent.noConfusion h

theorem send_gap_read_no_delivery {s : MAVFTP} {g : Nat × Nat} {now : ℚ} {d : List Nat}
    (h : FTPEvent.readCallback d ∈ (s.send_gap_read g now).events) :
    FTPEvent.readCallback d ∈ s.events :=
  send_no_delivery h

theorem send_zero_gaps_no_delivery {items : List ((Nat × Nat) × ℚ)} {s : MAVFTP}
    {now : ℚ} {d : List Nat}
    (h : FTPEvent.readCallback d ∈ (s.send_zero_gaps items now).events) :
    FTPEvent.readCallback d ∈ s.events := by
  induction items generalizing s with
  | nil => exact h
  | cons e rest ih =>
    obtain ⟨g, v⟩ := e
    simp only [MAVFTP.send_zero_gaps] at h
    by_cases hv : v = 0
    · rw [if_pos hv] at h
      exact send_gap_read_no_delivery (ih h)
    · rw [if_neg hv] at h
      exact ih h

theorem check_read_send_no_delivery {s : MAVFTP} {now : ℚ} {d : List Nat}
    (h : FTPEvent.readCallback d ∈ (s.check_read_send now).events) :
    FTPEvent.readCallback d ∈ s.events := by
  unfold MAVFTP.check_read_send at h
  split at h
  · exact h
  · dsimp only at h
    split at h
    · exact send_zero_gaps_no_delivery h
    · repeat' split at h
      all_goals first
        | exact h
        | (have h2 := send_gap_read_no_delivery h
           exact h2)

/-- C2: EOF detection on a burst-complete reply. -/
theorem burst_complete_eof_detection :
    (∀ (s : MAVFTP) (op : FTP_OP) (now : ℚ) (f : Sio) (nm : String),
      s.ftp_settings_pkt_loss_tx = 0 → s.fh = some f → s.filename = some nm →
      op.opcode = 128 → op.burst_complete ≠ 0 → op.offset = f.pos →
      op.payload.length ≤ s.burst_size → s.read_gaps ≠ [] →
      0 < op.size → op.size < s.burst_size →
      (s.handle_burst_read op now).reached_eof = true) ∧
    (∀ (s : MAVFTP) (op : FTP_OP) (now : ℚ) (f : Sio) (nm : String) (lo : FTP_OP),
      s.ftp_settings_pkt_loss_tx = 0 → s.fh = some f → s.filename = some nm →
      s.last_op = some lo → s.callback_progress = false → s.reached_eof = false →
      op.opcode = 128 → op.burst_complete ≠ 0 → op.offset = f.pos →
      op.payload.length ≤ s.burst_size → op.size = s.burst_size →
      (s.handle_burst_read op now).reached_eof = false ∧
        (s.handle_burst_read op now).events =
          s.events ++ [FTPEvent.sentFrame
            { lo with seq := s.seq, offset := op.offset + op.size }]) := by
  constructor
  · intro s op now f nm hloss hfh hfn hopc hbc hofs hpl hgaps hsz1 hsz2
    have hnb : ¬ (s.burst_size < op.payload.length) := by omega
    have hno : ¬ (op.offset < f.pos) := by omega
    have hno' : ¬ (f.pos < op.offset) := by omega
    by_cases hcp : s.callback_progress = true <;>
      simp [MAVFTP.handle_burst_read, MAVFTP.write_payload, MAVFTP.burst_complete_step,
        MAVFTP.check_read_finished, check_read_send_reached_eof, hloss, hfh, hfn, hopc,
        hbc, hofs, hnb, hno, hno', hgaps, hcp, hsz1, hsz2]
  · intro s op now f nm lo hloss hfh hfn hlo hcp heof hopc hbc hofs hpl hsz
    have hnb : ¬ (s.burst_size < op.payload.length) := by omega
    have hno : ¬ (op.offset < f.pos) := by omega
    have hno' : ¬ (f.pos < op.offset) := by omega
    have hns : ¬ (op.size < s.burst_size) := by omega
    simp [MAVFTP.handle_burst_read, MAVFTP.write_payload, MAVFTP.burst_complete_step,
      MAVFTP.send, hloss, hfh, hfn, hlo, hcp, heof, hopc, hbc, hofs, hnb, hno, hno', hns]

theorem burst_complete_eof_detection_witness :
    ((0 < eofBurstOp.size ∧ eofBurstOp.size < eofBurstState.burst_size ∧
        eofBurstState.read_gaps ≠ [] ∧
        (eofBurstState.handle_burst_read eofBurstOp 2).reached_eof = true) ∧
      (contBurstOp.size = eofBurstState.burst_size ∧
        (eofBurstState.handle_burst_read contBurstOp 2).reached_eof = false ∧
        (eofBurstState.handle_burst_read contBurstOp 2).events =
          eofBurstState.events ++ [FTPEvent.sentFrame
            { seq := 10, session := 0, opcode := 15, size := 80, req_opcode := 0,
              burst_complete := 0, offset := 240, payload := [] }])) :=
  ⟨⟨by decide, by decide, by decide,
      burst_complete_eof_detection.1 eofBurstState eofBurstOp 2
        { data := List.replicate 160 7, pos := 160 } "log.bin" rfl rfl rfl rfl
        (by decide) rfl (by decide) (by decide) (by decide) (by decide)⟩,
    ⟨by decide,
      (burst_complete_eof_detection.2 eofBurstState contBurstOp 2
        { data := List.replicate 160 7, pos := 160 } "log.bin"
        { seq := 9, session := 0, opcode := 15, size := 80, req_opcode := 0,
          burst_complete := 0, offset := 80, payload := [] }
        rfl rfl rfl rfl rfl rfl rfl (by decide) rfl (by decide) (by decide)).1,
      (burst_complete_eof_detection.2 eofBurstState contBurstOp 2
        { data := List.replicate 160 7, pos := 160 } "log.bin"
        { seq := 9, session := 0, opcode := 15, size := 80, req_opcode := 0,
          burst_complete := 0, offset := 80, payload := [] }
        rfl rfl rfl rfl rfl rfl rfl (by decide) rfl (by decide) (by decide)).2⟩⟩


/-- C3: completion gating during a get. -/
theorem completion_requires_eof_and_no_gaps :
    (∀ s : MAVFTP, ¬ (s.reached_eof = true ∧ s.read_gaps = []) →
      s.check_read_finished = (false, s)) ∧
    (∀ (s : MAVFTP) (op : FTP_OP) (now : ℚ) (f : Sio) (nm : String),
      s.ftp_settings_pkt_loss_tx = 0 → s.fh = some f → s.filename = some nm →
      op.opcode = 129 → (op.payload.headD 0 = 6 ∨ op.payload.headD 0 = 0) →
      op.payload ≠ [] → s.read_gaps ≠ [] → s.events = [] →
      ∀ d : List Nat, FTPEvent.readCallback d ∉ (s.handle_burst_read op now).events) ∧
    (∀ (s : MAVFTP) (op : FTP_OP) (now : ℚ) (f : Sio) (nm : String),
      s.ftp_settings_pkt_loss_tx = 0 → s.fh = some f → s.filename = some nm →
      op.opcode = 129 → (op.payload.headD 0 = 6 ∨ op.payload.headD 0 = 0) →
      op.payload.length ≤ s.burst_size → s.reached_eof = false → f.pos < op.offset →
      s.handle_burst_read op now = { s with last_burst_read := some now } ∧
        (s.handle_burst_read op now).reached_eof = false) := by
  refine ⟨?_, ?_, ?_⟩
  · intro s h
    unfold MAVFTP.check_read_finished
    rw [if_neg h]
  · intro s op now f nm hloss hfh hfn hopc hec hpne hgaps hev d h
    have h' : FTPEvent.readCallback d ∈ s.events := by
      rcases hec with hec | hec <;>
        by_cases hb : s.burst_size < op.payload.length <;>
        by_cases hre : s.reached_eof = false ∧ f.pos < op.offset <;>
        simp only [MAVFTP.handle_burst_read, MAVFTP.check_read_finished, hloss, hfh, hfn,
          hopc, hec, hb, hre, hgaps, lt_irrefl, if_true, if_false, ite_true, ite_false,
          ne_eq, not_false_eq_true, not_true_eq_false, and_true, and_false, false_and,
          true_and, if_neg, decide_True, decide_False, reduceIte] at h <;>
        first
          | exact h
          | (have h2 := check_read_send_no_delivery h
             exact h2)
    rw [hev] at h'
    exact List.not_mem_nil _ h'
  · intro s op now f nm hloss hfh hfn hopc hec hpl heof hlt
    have hnb : ¬ (s.burst_size < op.payload.length) := by omega
    constructor
    · rcases hec with hec | hec <;>
        simp [MAVFTP.handle_burst_read, hloss, hfh, hfn, hopc, hec, hnb, heof, hlt]
    · rcases hec with hec | hec <;>
        simp [MAVFTP.handle_burst_read, hloss, hfh, hfn, hopc, hec, hnb, heof, hlt]
theorem completion_requires_eof_and_no_gaps_witness :
    (¬ (nackState.reached_eof = true ∧ nackState.read_gaps = []) ∧
      nackState.check_read_finished = (false, nackState)) ∧
    (nackState.read_gaps ≠ [] ∧ nackState.events = [] ∧
      ∀ d : List Nat,
        FTPEvent.readCallback d ∉ (nackState.handle_burst_read nackOp 3).events) ∧
    (nackState.reached_eof = false ∧
      nackState.handle_burst_read nackLostOp 3 =
        { nackState with last_burst_read := some 3 } ∧
      (nackState.handle_burst_read nackLostOp 3).reached_eof = false) :=
  ⟨⟨by decide, completion_requires_eof_and_no_gaps.1 nackState (by decide)⟩,
    ⟨by decide, rfl,
      completion_requires_eof_and_no_gaps.2.1 nackState nackOp 3
        { data := List.replicate 80 3, pos := 80 } "data.bin" rfl rfl rfl rfl
        (Or.inl rfl) (by decide) (by decide) rfl⟩,
    ⟨rfl,
      (completion_requires_eof_and_no_gaps.2.2 nackState nackLostOp 3
        { data := List.replicate 80 3, pos := 80 } "data.bin" rfl rfl rfl rfl
        (Or.inl rfl) (by decide) rfl (by decide)).1,
      (completion_requires_eof_and_no_gaps.2.2 nackState nackLostOp 3
        { data := List.replicate 80 3, pos := 80 } "data.bin" rfl rfl rfl rfl
        (Or.inl rfl) (by decide) rfl (by decide)).2⟩⟩

/-- C5 (amended): a fill for an already-closed range is a no-op aside from the
duplicates counter, in the two cases where the source treats it as a
duplicate.  First: a BurstReadFile Ack at an offset below the sink position
whose (offset, payload length) matches no tracked gap only refreshes
last_burst_read and increments duplicates.  Second: a ReadFile Ack matching no
tracked gap whose size is at least burst_size (here with no other gap
outstanding, so the trailing __check_read_send is quiescent) only decrements
the backlog (floor 0) and increments duplicates; sink, cursor, gap list,
gap-time map and session are unchanged and the session is not terminated.  (A
non-matching ReadFile Ack with size below burst_size instead terminates the
session, see the counterexample.) -/
theorem duplicate_fill_noop_amended :
    (∀ (s : MAVFTP) (op : FTP_OP) (now : ℚ) (f : Sio) (nm : String),
      s.ftp_settings_pkt_loss_tx = 0 → s.fh = some f → s.filename = some nm →
      op.opcode = 128 → op.payload.length ≤ s.burst_size → op.offset < f.pos →
      (op.offset, op.payload.length) ∉ s.read_gaps →
      s.handle_burst_read op now =
        { s with last_burst_read := some now, duplicates := s.duplicates + 1 }) ∧
    (∀ (s : MAVFTP) (op : FTP_OP) (now : ℚ) (f : Sio) (nm : String),
      s.fh = some f → s.filename = some nm → op.opcode = 128 →
      s.burst_size ≤ op.size → s.read_gaps = [] →
      s.handle_reply_read op now =
        { s with backlog := s.backlog - 1, duplicates := s.duplicates + 1 }) := by
  constructor
  · intro s op now f nm hloss hfh hfn hopc hpl hlt hmem
    have hnb : ¬ (s.burst_size < op.payload.length) := by omega
    simp [MAVFTP.handle_burst_read, hloss, hfh, hfn, hopc, hnb, hlt, hmem]
  · intro s op now f nm hfh hfn hopc hsz hgaps
    have hns : ¬ (op.size < s.burst_size) := by omega
    simp [MAVFTP.handle_reply_read, MAVFTP.check_read_send, hfh, hfn, hopc, hns, hgaps]

theorem duplicate_fill_noop_amended_witness :
    (dupBurstOp.offset < 50 ∧ (dupBurstOp.offset, dupBurstOp.payload.length) ∉
        dupBurstState.read_gaps ∧
      dupBurstState.handle_burst_read dupBurstOp 3 =
        { dupBurstState with last_burst_read := some 3, duplicates := 1 }) ∧
    (dupAckState.burst_size ≤ dupReadOp.size ∧ dupAckState.read_gaps = [] ∧
      dupAckState.handle_reply_read dupReadOp 3 =
        { dupAckState with backlog := dupAckState.backlog - 1,
                           duplicates := dupAckState.duplicates + 1 }) :=
  ⟨⟨by decide, by decide,
      duplicate_fill_noop_amended.1 dupBurstState dupBurstOp 3
        { data := List.replicate 50 2, pos := 50 } "x.bin" rfl rfl rfl rfl
        (by decide) (by decide) (by decide)⟩,
    ⟨by decide, rfl,
      duplicate_fill_noop_amended.2 dupAckState dupReadOp 3
        { data := [], pos := 0 } "f.txt" rfl rfl rfl (by decide) rfl⟩⟩


theorem write_loop_write_list (n : Nat) (s : MAVFTP) (now : ℚ) :
    (s.write_loop now n).write_list = s.write_list := by
  induction n generalizing s with
  | zero => rfl
  | succ n ih =>
    unfold MAVFTP.write_loop
    split
    · rw [ih]
      rfl
    · rfl

theorem terminate_session_write_list (s : MAVFTP) :
    s.terminate_session.write_list = none := by
  unfold MAVFTP.terminate_session MAVFTP.send
  dsimp only
  repeat' split
  all_goals rfl

theorem put_finished_write_list (s : MAVFTP) (flen : Nat) :
    (s.put_finished flen).write_list = s.write_list := by
  unfold MAVFTP.put_finished
  dsimp only
  repeat' split
  all_goals rfl

/-- C6: WriteFile-Ack reconciliation, and monotonicity of the write list. -/
theorem write_ack_reconciliation :
    (∀ (s : MAVFTP) (op : FTP_OP) (now : ℚ) (f : Sio) (wl : Finset Nat),
      s.fh = some f → op.opcode = 128 → s.write_list = some wl → 1 ≤ s.write_total →
      s.handle_write_reply op now = (s.write_ack_update op).send_more_writes now ∧
      (s.write_ack_update op).write_pending =
        max 0 (s.write_pending -
          (((op.offset / s.write_block_size : Nat) : Int) - s.write_recv_idx) %
            (s.write_total : Int)) ∧
      (s.write_ack_update op).write_recv_idx =
        ((op.offset / s.write_block_size : Nat) : Int) ∧
      (s.write_ack_update op).write_list =
        some (wl.erase (op.offset / s.write_block_size)) ∧
      (s.write_ack_update op).write_acks = s.write_acks + 1 ∧
      (s.put_callback_progress = true →
        (s.write_ack_update op).events = s.events ++
          [FTPEvent.putProgress (((s.write_acks + 1 : Nat) : ℚ) / ((s.write_total : Nat) : ℚ))])) ∧
    (∀ (s : MAVFTP) (now : ℚ) (wl₀ wl₁ : Finset Nat),
      s.write_list = some wl₀ → (s.send_more_writes now).write_list = some wl₁ →
      wl₁ ⊆ wl₀) := by
  constructor
  · intro s op now f wl hfh hopc hwl htot
    refine ⟨?_, ?_, ?_, ?_, ?_, ?_⟩
    · simp [MAVFTP.handle_write_reply, hfh, hopc]
    · by_cases hp : s.put_callback_progress = true <;>
        simp [MAVFTP.write_ack_update, hp]
    · by_cases hp : s.put_callback_progress = true <;>
        simp [MAVFTP.write_ack_update, hp]
    · by_cases hp : s.put_callback_progress = true <;>
        simp [MAVFTP.write_ack_update, hp, hwl]
    · by_cases hp : s.put_callback_progress = true <;>
        simp [MAVFTP.write_ack_update, hp]
    · intro hp
      simp [MAVFTP.write_ack_update, hp]
  · intro s now wl₀ wl₁ h0 h1
    unfold MAVFTP.send_more_writes at h1
    rw [h0] at h1
    dsimp only at h1
    by_cases hc : wl₀.card = 0
    · rw [if_pos hc] at h1
      have hnone : ({ (s.put_finished s.write_file_size).terminate_session with
          op_pending := false } : MAVFTP).write_list = none := by
        have h2 := terminate_session_write_list (s.put_finished s.write_file_size)
        simpa using h2
      rw [hnone] at h1
      exact absurd h1 (by simp)
    · rw [if_neg hc, write_loop_write_list] at h1
      split at h1
      · split at h1
        · obtain rfl : wl₁ = wl₀ := by injection h1.symm
          exact Finset.Subset.refl wl₁
        · rw [h0] at h1
          obtain rfl : wl₁ = wl₀ := by injection h1.symm
          exact Finset.Subset.refl wl₁
      · rw [h0] at h1
        obtain rfl : wl₁ = wl₀ := by injection h1.symm
        exact Finset.Subset.refl wl₁

theorem write_ack_reconciliation_witness :
    (putState.fh = some { data := List.replicate 250 9, pos := 240 } ∧
      writeAckOp.opcode = 128 ∧ putState.write_list = some {0, 1, 2, 3} ∧
      1 ≤ putState.write_total) ∧
    (putState.handle_write_reply writeAckOp 5 =
        (putState.write_ack_update writeAckOp).send_more_writes 5 ∧
      (putState.write_ack_update writeAckOp).write_pending =
        max 0 (putState.write_pending -
          (((writeAckOp.offset / putState.write_block_size : Nat) : Int) -
            putState.write_recv_idx) % (putState.write_total : Int)) ∧
      (putState.write_ack_update writeAckOp).write_recv_idx =
        ((writeAckOp.offset / putState.write_block_size : Nat) : Int) ∧
      (putState.write_ack_update writeAckOp).write_list =
        some (({0, 1, 2, 3} : Finset Nat).erase
          (writeAckOp.offset / putState.write_block_size)) ∧
      (putState.write_ack_update writeAckOp).write_acks = putState.write_acks + 1 ∧
      (putState.put_callback_progress = true →
        (putState.write_ack_update writeAckOp).events = putState.events ++
          [FTPEvent.putProgress (((putState.write_acks + 1 : Nat) : ℚ) /
            ((putState.write_total : Nat) : ℚ))])) ∧
    (putState.write_list = some {0, 1, 2, 3} ∧
      (putState.send_more_writes 5).write_list = some {0, 1, 2, 3} ∧
      ({0, 1, 2, 3} : Finset Nat) ⊆ ({0, 1, 2, 3} : Finset Nat)) :=
  ⟨⟨rfl, rfl, rfl, by decide⟩,
    write_ack_reconciliation.1 putState writeAckOp 5
      { data := List.replicate 250 9, pos := 240 } {0, 1, 2, 3} rfl rfl rfl (by decide),
    ⟨rfl, by decide,
      write_ack_reconciliation.2 putState 5 {0, 1, 2, 3} {0, 1, 2, 3} rfl (by decide)⟩⟩


theorem write_payload_read_gaps (s : MAVFTP) (op : FTP_OP) :
    (s.write_payload op).read_gaps = s.read_gaps := by
  unfold MAVFTP.write_payload
  dsimp only
  repeat' split
  all_goals rfl

theorem write_payload_read_gap_times (s : MAVFTP) (op : FTP_OP) :
    (s.write_payload op).read_gap_times = s.read_gap_times := by
  unfold MAVFTP.write_payload
  dsimp only
  repeat' split
  all_goals rfl

theorem write_payload_fh (s : MAVFTP) (op : FTP_OP) (f : Sio) (h : s.fh = some f) :
    (s.write_payload op).fh = some ((f.seek op.offset).write op.payload) := by
  unfold MAVFTP.write_payload
  rw [h]
  dsimp only
  repeat' split
  all_goals rfl

theorem split_gaps_go_covers (fuel : Nat) : ∀ (ofs len mr : Nat),
    covers ofs (ofs + len) (split_gaps_go fuel ofs len mr) := by
  induction fuel with
  | zero => exact fun ofs len mr => ⟨rfl, rfl⟩
  | succ fuel ih =>
    intro ofs len mr
    unfold split_gaps_go
    by_cases h : len ≤ mr
    · rw [if_pos h]
      exact ⟨rfl, rfl⟩
    · rw [if_neg h]
      refine ⟨rfl, ?_⟩
      have h2 := ih (ofs + mr) (len - mr) mr
      have harith : ofs + mr + (len - mr) = ofs + len := by omega
      rwa [harith] at h2

theorem split_gaps_go_bounds (fuel : Nat) : ∀ (ofs len mr : Nat), 1 ≤ mr → 1 ≤ len →
    len ≤ fuel + mr → ∀ g ∈ split_gaps_go fuel ofs len mr, 1 ≤ g.2 ∧ g.2 ≤ mr := by
  induction fuel with
  | zero =>
    intro ofs len mr h1 h2 h3 g hg
    simp only [split_gaps_go, List.mem_singleton] at hg
    subst hg
    exact ⟨h2, by omega⟩
  | succ fuel ih =>
    intro ofs len mr h1 h2 h3 g hg
    unfold split_gaps_go at hg
    by_cases h : len ≤ mr
    · rw [if_pos h] at hg
      simp only [List.mem_singleton] at hg
      subst hg
      exact ⟨h2, h⟩
    · rw [if_neg h] at hg
      rcases List.mem_cons.mp hg with hg | hg
      · subst hg
        exact ⟨h1, le_refl mr⟩
      · exact ih (ofs + mr) (len - mr) mr h1 (by omega) (by omega) g hg

theorem split_gaps_covers (ofs len mr : Nat) :
    covers ofs (ofs + len) (split_gaps ofs len mr) :=
  split_gaps_go_covers len ofs len mr

theorem split_gaps_bounds (ofs len mr : Nat) (h1 : 1 ≤ mr) (h2 : 1 ≤ len) :
    ∀ g ∈ split_gaps ofs len mr, 1 ≤ g.2 ∧ g.2 ≤ mr :=
  split_gaps_go_bounds len ofs len mr h1 h2 (by omega)

theorem dlookup_dictSet_self (d : List ((Nat × Nat) × ℚ)) (k : Nat × Nat) (v : ℚ) :
    dlookup (dictSet d k v) k = some v := by
  induction d with
  | nil => simp [dictSet, dlookup]
  | cons e rest ih =>
    obtain ⟨k', v'⟩ := e
    by_cases h : k' = k
    · simp [dictSet, dlookup, h]
    · simp [dictSet, dlookup, h, ih]

theorem dlookup_dictSet_ne (d : List ((Nat × Nat) × ℚ)) (k g : Nat × Nat) (v : ℚ)
    (h : k ≠ g) : dlookup (dictSet d k v) g = dlookup d g := by
  induction d with
  | nil => simp [dictSet, dlookup, h]
  | cons e rest ih =>
    obtain ⟨k', v'⟩ := e
    by_cases h' : k' = k
    · subst h'
      simp [dictSet, dlookup, h]
    · by_cases h'' : k' = g <;> simp [dictSet, dlookup, h', h'', ih, Ne.symm h]

theorem dlookup_fold_set_zero (gl : List (Nat × Nat)) (d : List ((Nat × Nat) × ℚ))
    (g : Nat × Nat) (h : g ∈ gl ∨ dlookup d g = some 0) :
    dlookup (gl.foldl (fun d' g' => dictSet d' g' 0) d) g = some 0 := by
  induction gl generalizing d with
  | nil =>
    rcases h with h | h
    · exact absurd h (List.not_mem_nil g)
    · simpa using h
  | cons k rest ih =>
    simp only [List.foldl_cons]
    apply ih
    rcases h with h | h
    · rcases List.mem_cons.mp h with h | h
      · subst h
        exact Or.inr (dlookup_dictSet_self d g 0)
      · exact Or.inl h
    · by_cases hk : k = g
      · subst hk
        exact Or.inr (dlookup_dictSet_self d k 0)
      · exact Or.inr (by rw [dlookup_dictSet_ne d k g 0 hk]; exact h)

/-- C7: a forward jump creates gaps exactly partitioning the skipped interval. -/
theorem forward_jump_gap_partition (s : MAVFTP) (op : FTP_OP) (now : ℚ) (f : Sio)
    (nm : String) (hloss : s.ftp_settings_pkt_loss_tx = 0) (hfh : s.fh = some f)
    (hfn : s.filename = some nm) (hopc : op.opcode = 128) (hbc : op.burst_complete = 0)
    (hpl : op.payload.length ≤ s.burst_size) (hbs : 1 ≤ s.burst_size)
    (hlt : f.pos < op.offset) :
    (s.handle_burst_read op now).read_gaps =
      s.read_gaps ++ split_gaps f.pos (op.offset - f.pos) s.burst_size ∧
    covers f.pos op.offset (split_gaps f.pos (op.offset - f.pos) s.burst_size) ∧
    (∀ g ∈ split_gaps f.pos (op.offset - f.pos) s.burst_size,
      1 ≤ g.2 ∧ g.2 ≤ s.burst_size) ∧
    (∀ g ∈ split_gaps f.pos (op.offset - f.pos) s.burst_size,
      dlookup (s.handle_burst_read op now).read_gap_times g = some 0) ∧
    (s.handle_burst_read op now).fh = some ((f.seek op.offset).write op.payload) := by
  have hnb : ¬ (s.burst_size < op.payload.length) := by omega
  have hno : ¬ (op.offset < f.pos) := by omega
  have hrun : s.handle_burst_read op now =
      MAVFTP.write_payload
        { s with
          last_burst_read := some now
          read_gaps := s.read_gaps ++ split_gaps f.pos (op.offset - f.pos) s.burst_size
          read_gap_times :=
            (split_gaps f.pos (op.offset - f.pos) s.burst_size).foldl
              (fun d' g' => dictSet d' g' 0) s.read_gap_times } op := by
    simp [MAVFTP.handle_burst_read, MAVFTP.burst_complete_step, hloss, hfh, hfn, hopc,
      hbc, hnb, hno, hlt]
  have hcov := split_gaps_covers f.pos (op.offset - f.pos) s.burst_size
  have harith : f.pos + (op.offset - f.pos) = op.offset := by omega
  rw [harith] at hcov
  refine ⟨?_, hcov, ?_, ?_, ?_⟩
  · rw [hrun, write_payload_read_gaps]
  · exact split_gaps_bounds f.pos (op.offset - f.pos) s.burst_size hbs (by omega)
  · intro g hg
    rw [hrun, write_payload_read_gap_times]
    exact dlookup_fold_set_zero _ _ _ (Or.inl hg)
  · rw [hrun]
    exact write_payload_fh _ _ _ hfh

theorem forward_jump_gap_partition_witness :
    (jumpOp.payload.length ≤ jumpState.burst_size ∧ 1 ≤ jumpState.burst_size ∧
      (80 : Nat) < jumpOp.offset) ∧
    ((jumpState.handle_burst_read jumpOp 4).read_gaps =
        jumpState.read_gaps ++ split_gaps 80 (jumpOp.offset - 80) jumpState.burst_size ∧
      covers 80 jumpOp.offset (split_gaps 80 (jumpOp.offset - 80) jumpState.burst_size) ∧
      (∀ g ∈ split_gaps 80 (jumpOp.offset - 80) jumpState.burst_size,
        1 ≤ g.2 ∧ g.2 ≤ jumpState.burst_size) ∧
      (∀ g ∈ split_gaps 80 (jumpOp.offset - 80) jumpState.burst_size,
        dlookup (jumpState.handle_burst_read jumpOp 4).read_gap_times g = some 0) ∧
      (jumpState.handle_burst_read jumpOp 4).fh =
        some ((Sio.seek { data := List.replicate 80 5, pos := 80 } jumpOp.offset).write
          jumpOp.payload)) :=
  ⟨⟨by decide, by decide, by decide⟩,
    forward_jump_gap_partition jumpState jumpOp 4
      { data := List.replicate 80 5, pos := 80 } "j.bin" rfl rfl rfl rfl rfl
      (by decide) (by decide) (by decide)⟩


/-- C10: cmd_put on a zero-length local file sends only CreateFile, and the
CreateFile Ack completes the put with no WriteFile at all: progress 1.0, the
put callback receives 0, and the session is terminated. -/
theorem empty_put_immediate_completion (s : MAVFTP) (fname : String) (now now2 : ℚ)
    (ack : FTP_OP) (hwl : s.write_list = none) (hev : s.events = [])
    (hcb : s.callback = false) (hcbp : s.callback_progress = false)
    (hnm : ((os_path_basename fname).data.getLast? == some '/') = false)
    (hack : ack.opcode = 128) :
    ((s.cmd_put fname none [] true true now).write_total = 0 ∧
      (s.cmd_put fname none [] true true now).write_list = some ∅ ∧
      (s.cmd_put fname none [] true true now).events =
        [FTPEvent.sentFrame
          { seq := s.seq, session := s.session, opcode := 6,
            size := (enc_ascii (os_path_basename fname)).length, req_opcode := 0,
            burst_complete := 0, offset := 0,
            payload := enc_ascii (os_path_basename fname) }]) ∧
    (((s.cmd_put fname none [] true true now).handle_create_file_reply ack now2).events =
        [FTPEvent.sentFrame
          { seq := s.seq, session := s.session, opcode := 6,
            size := (enc_ascii (os_path_basename fname)).length, req_opcode := 0,
            burst_complete := 0, offset := 0,
            payload := enc_ascii (os_path_basename fname) },
         FTPEvent.putProgress 1, FTPEvent.putCallback 0,
         FTPEvent.sentFrame
          { seq := (s.seq + 1) % 256, session := s.session, opcode := 1, size := 0,
            req_opcode := 0, burst_complete := 0, offset := 0, payload := [] }] ∧
      (∀ op2 : FTP_OP,
        FTPEvent.sentFrame op2 ∈
            ((s.cmd_put fname none [] true true now).handle_create_file_reply ack
              now2).events →
          op2.opcode ≠ 7) ∧
      ((s.cmd_put fname none [] true true now).handle_create_file_reply ack
          now2).op_pending = false ∧
      ((s.cmd_put fname none [] true true now).handle_create_file_reply ack
          now2).session = (s.session + 1) % 256) := by
  have h1 : (s.cmd_put fname none [] true true now).write_total = 0 := by
    simp [MAVFTP.cmd_put, MAVFTP.send, hwl]
  have h2 : (s.cmd_put fname none [] true true now).write_list = some ∅ := by
    simp [MAVFTP.cmd_put, MAVFTP.send, hwl, Finset.range_zero]
  have h3 : (s.cmd_put fname none [] true true now).events =
      [FTPEvent.sentFrame
        { seq := s.seq, session := s.session, opcode := 6,
          size := (enc_ascii (os_path_basename fname)).length, req_opcode := 0,
          burst_complete := 0, offset := 0,
          payload := enc_ascii (os_path_basename fname) }] := by
    simp [MAVFTP.cmd_put, MAVFTP.send, hwl, hev, hnm]
  have h4 : ((s.cmd_put fname none [] true true now).handle_create_file_reply ack
      now2).events =
      [FTPEvent.sentFrame
        { seq := s.seq, session := s.session, opcode := 6,
          size := (enc_ascii (os_path_basename fname)).length, req_opcode := 0,
          burst_complete := 0, offset := 0,
          payload := enc_ascii (os_path_basename fname) },
       FTPEvent.putProgress 1, FTPEvent.putCallback 0,
       FTPEvent.sentFrame
        { seq := (s.seq + 1) % 256, session := s.session, opcode := 1, size := 0,
          req_opcode := 0, burst_complete := 0, offset := 0, payload := [] }] := by
    simp [MAVFTP.cmd_put, MAVFTP.send, MAVFTP.handle_create_file_reply,
      MAVFTP.send_more_writes, MAVFTP.put_finished, MAVFTP.terminate_session,
      hwl, hev, hcb, hcbp, hnm, hack]
  refine ⟨⟨h1, h2, h3⟩, h4, ?_, ?_, ?_⟩
  · intro op2 hm
    rw [h4] at hm
    simp only [List.mem_cons, List.not_mem_nil, or_false] at hm
    rcases hm with hm | hm | hm | hm
    · obtain rfl := FTPEvent.sentFrame.inj hm
      simp
    · exact FTPEvent.noConfusion hm
    · exact FTPEvent.noConfusion hm
    · obtain rfl := FTPEvent.sentFrame.inj hm
      simp
  · simp [MAVFTP.cmd_put, MAVFTP.send, MAVFTP.handle_create_file_reply,
      MAVFTP.send_more_writes, MAVFTP.put_finished, MAVFTP.terminate_session,
      hwl, hev, hcb, hcbp, hnm, hack]
  · simp [MAVFTP.cmd_put, MAVFTP.send, MAVFTP.handle_create_file_reply,
      MAVFTP.send_more_writes, MAVFTP.put_finished, MAVFTP.terminate_session,
      hwl, hev, hcb, hcbp, hnm, hack]

theorem empty_put_immediate_completion_witness :
    (baseState.write_list = none ∧ baseState.events = [] ∧
      ((os_path_basename "a.txt").data.getLast? == some '/') = false ∧
      createAckOp.opcode = 128) ∧
    ((baseState.cmd_put "a.txt" none [] true true 0).write_total = 0 ∧
      (baseState.cmd_put "a.txt" none [] true true 0).write_list = some ∅ ∧
      (baseState.cmd_put "a.txt" none [] true true 0).events =
        [FTPEvent.sentFrame
          { seq := baseState.seq, session := baseState.session, opcode := 6,
            size := (enc_ascii (os_path_basename "a.txt")).length, req_opcode := 0,
            burst_complete := 0, offset := 0,
            payload := enc_ascii (os_path_basename "a.txt") }]) ∧
    (((baseState.cmd_put "a.txt" none [] true true 0).handle_create_file_reply
        createAckOp 1).op_pending = false ∧
      ((baseState.cmd_put "a.txt" none [] true true 0).handle_create_file_reply
        createAckOp 1).session = (baseState.session + 1) % 256) :=
  ⟨⟨rfl, rfl, by decide, rfl⟩,
    (empty_put_immediate_completion baseState "a.txt" 0 1 createAckOp rfl rfl rfl rfl
      (by decide) rfl).1,
    ⟨(empty_put_immediate_completion baseState "a.txt" 0 1 createAckOp rfl rfl rfl rfl
        (by decide) rfl).2.2.2.1,
      (empty_put_immediate_completion baseState "a.txt" 0 1 createAckOp rfl rfl rfl rfl
        (by decide) rfl).2.2.2.2⟩⟩


theorem parallelWith_spec : ∀ (ps qs : List PEntry) (bs : List Bool),
    parallelWith ps qs bs →
    ps.length = qs.length ∧
    ∀ (i : Nat) (h1 : i < ps.length) (h2 : i < qs.length),
      (ps.get ⟨i, h1⟩).name = (qs.get ⟨i, h2⟩).name ∧
      (ps.get ⟨i, h1⟩).ptype = (qs.get ⟨i, h2⟩).ptype ∧
      (bs.getD i true = false → (ps.get ⟨i, h1⟩).value = (qs.get ⟨i, h2⟩).value) := by
  intro ps
  induction ps with
  | nil =>
    intro qs bs h
    cases qs with
    | nil => exact ⟨rfl, fun i h1 _ => absurd h1 (by simp)⟩
    | cons q qs => exact h.elim
  | cons p ps ih =>
    intro qs bs h
    cases qs with
    | nil => exact h.elim
    | cons q qs =>
      cases bs with
      | nil => exact h.elim
      | cons b bs =>
        obtain ⟨hn, hp, hv, hrest⟩ := h
        obtain ⟨hlen, hidx⟩ := ih qs bs hrest
        refine ⟨by simp [hlen], ?_⟩
        intro i h1 h2
        cases i with
        | zero => exact ⟨hn, hp, hv⟩
        | succ i => exact hidx i (by simpa using h1) (by simpa using h2)

theorem param_decode_go_parallel (fuel : Nat) : ∀ (data last_name : List Nat)
    (pd : ParamData) (count : Nat) (pd' : ParamData) (count' : Nat),
    param_decode_go true fuel data last_name pd count = some (pd', count') →
    ∃ np nd, pd'.params = pd.params ++ np ∧
      pd'.defaults.getD [] = pd.defaults.getD [] ++ nd ∧
      parallelWith np nd (param_decode_flags_go true fuel data) := by
  induction fuel with
  | zero =>
    intro data last_name pd count pd' count' h
    simp only [param_decode_go] at h
    split at h
    · simp only [Option.some.injEq, Prod.mk.injEq] at h
      obtain ⟨rfl, rfl⟩ := h
      exact ⟨[], [], by simp, by simp, trivial⟩
    · exact absurd h (by simp)
  | succ fuel ih =>
    intro data last_name pd count pd' count' h
    rw [param_decode_go] at h
    split at h
    · simp only [Option.some.injEq, Prod.mk.injEq] at h
      obtain ⟨rfl, rfl⟩ := h
      exact ⟨[], [], by simp, by simp, trivial⟩
    · exact absurd h (by simp)
    · rename_i p0 p1 tail hsp
      simp only [Bool.true_and, eq_self_iff_true, if_true] at h
      split at h
      · exact absurd h (by simp)
      · rename_i type_len htl
        rw [param_decode_flags_go]
        simp only [hsp, htl, Bool.true_and]
        by_cases hd : decide (p0 >>> 4 &&& 15 &&& 1 ≠ 0) = true
        · simp only [hd, eq_self_iff_true, if_true] at h ⊢
          split at h
          · exact absurd h (by simp)
          · obtain ⟨np₂, nd₂, hp₂, hd₂, hpar₂⟩ := ih _ _ _ _ _ _ h
            refine
              ⟨{ name := List.take (p1 &&& 15) last_name ++
                    List.take ((p1 >>> 4 &&& 15) + 1) tail,
                 value := List.take type_len
                    (List.take (type_len + type_len) (List.drop ((p1 >>> 4 &&& 15) + 1) tail)),
                 ptype := p0 &&& 15 } :: np₂,
               { name := List.take (p1 &&& 15) last_name ++
                    List.take ((p1 >>> 4 &&& 15) + 1) tail,
                 value := List.drop type_len
                    (List.take (type_len + type_len) (List.drop ((p1 >>> 4 &&& 15) + 1) tail)),
                 ptype := p0 &&& 15 } :: nd₂, ?_, ?_, ?_⟩
            · rw [hp₂]
              simp only [ParamData.add_param, ParamData.add_default, List.append_assoc,
                List.singleton_append]
            · rw [hd₂]
              simp only [ParamData.add_param, ParamData.add_default, Option.getD_some,
                List.append_assoc, List.singleton_append]
            · exact ⟨rfl, rfl, fun hb => absurd hb (by simp), hpar₂⟩
        · simp only [Bool.not_eq_true] at hd
          simp only [hd, Bool.false_eq_true, if_false] at h ⊢
          split at h
          · exact absurd h (by simp)
          · obtain ⟨np₂, nd₂, hp₂, hd₂, hpar₂⟩ := ih _ _ _ _ _ _ h
            refine
              ⟨{ name := List.take (p1 &&& 15) last_name ++
                    List.take ((p1 >>> 4 &&& 15) + 1) tail,
                 value := List.take (type_len + 0)
                    (List.drop ((p1 >>> 4 &&& 15) + 1) tail),
                 ptype := p0 &&& 15 } :: np₂,
               { name := List.take (p1 &&& 15) last_name ++
                    List.take ((p1 >>> 4 &&& 15) + 1) tail,
                 value := List.take (type_len + 0)
                    (List.drop ((p1 >>> 4 &&& 15) + 1) tail),
                 ptype := p0 &&& 15 } :: nd₂, ?_, ?_, ?_⟩
            · rw [hp₂]
              simp only [ParamData.add_param, ParamData.add_default, List.append_assoc,
                List.singleton_append]
            · rw [hd₂]
              simp only [ParamData.add_param, ParamData.add_default, Option.getD_some,
                List.append_assoc, List.singleton_append]
            · exact ⟨rfl, rfl, fun _ => rfl, hpar₂⟩

theorem param_decode_go_no_defaults (fuel : Nat) : ∀ (data last_name : List Nat)
    (pd : ParamData) (count : Nat) (pd' : ParamData) (count' : Nat),
    param_decode_go false fuel data last_name pd count = some (pd', count') →
    pd'.defaults = pd.defaults := by
  induction fuel with
  | zero =>
    intro data last_name pd count pd' count' h
    simp only [param_decode_go] at h
    split at h
    · simp only [Option.some.injEq, Prod.mk.injEq] at h
      obtain ⟨rfl, rfl⟩ := h
      rfl
    · exact absurd h (by simp)
  | succ fuel ih =>
    intro data last_name pd count pd' count' h
    rw [param_decode_go] at h
    split at h
    · simp only [Option.some.injEq, Prod.mk.injEq] at h
      obtain ⟨rfl, rfl⟩ := h
      rfl
    · exact absurd h (by simp)
    · rename_i p0 p1 tail hsp
      simp only [Bool.false_and, Bool.false_eq_true, if_false] at h
      split at h
      · exact absurd h (by simp)
      · rename_i type_len htl
        split at h
        · exact absurd h (by simp)
        · rw [ih _ _ _ _ _ _ h]
          rfl

/-- C9: under magic 0x671C the defaults list is parallel to the params list. -/
theorem param_decode_defaults_parallel (data : List Nat) (pd : ParamData)
    (ds : List PEntry) (hdec : ftp_param_decode data = some pd)
    (hds : pd.defaults = some ds) :
    ds.length = pd.params.length ∧
    ∀ (i : Nat) (h1 : i < pd.params.length) (h2 : i < ds.length),
      (pd.params.get ⟨i, h1⟩).name = (ds.get ⟨i, h2⟩).name ∧
      (pd.params.get ⟨i, h1⟩).ptype = (ds.get ⟨i, h2⟩).ptype ∧
      ((ftp_param_decode_flags data).getD i true = false →
        (pd.params.get ⟨i, h1⟩).value = (ds.get ⟨i, h2⟩).value) := by
  unfold ftp_param_decode at hdec
  split at hdec
  · exact absurd hdec (by simp)
  · rename_i hlen
    dsimp only at hdec
    split at hdec
    · exact absurd hdec (by simp)
    · rename_i hmagic
      split at hdec
      · exact absurd hdec (by simp)
      · rename_i pc pdx countx hgo
        split at hdec
        · exact absurd hdec (by simp)
        · simp only [Option.some.injEq] at hdec
          subst hdec
          by_cases hC : data.getD 0 0 + 256 * data.getD 1 0 = 0x671C
          · have hwd : decide (data.getD 0 0 + 256 * data.getD 1 0 = 0x671C) = true :=
              decide_eq_true hC
            rw [hwd] at hgo
            obtain ⟨np, nd, hp, hd, hpar⟩ :=
              param_decode_go_parallel (data.drop 6).length (data.drop 6) []
                { params := [], defaults := none } 0 pdx countx hgo
            simp only [ParamData.params, List.nil_append] at hp
            have hd' : pdx.defaults.getD [] = ds := by rw [hds]; rfl
            rw [hd'] at hd
            simp only [ParamData.defaults, Option.getD_none, List.nil_append] at hd
            have hflags : ftp_param_decode_flags data =
                param_decode_flags_go true (data.drop 6).length (data.drop 6) := by
              unfold ftp_param_decode_flags
              rw [if_neg hlen, hwd]
            obtain ⟨hl, hidx⟩ := parallelWith_spec np nd _ hpar
            subst hp
            subst hd
            refine ⟨hl.symm, ?_⟩
            intro i h1 h2
            obtain ⟨ha, hb, hc⟩ := hidx i h1 h2
            refine ⟨ha, hb, ?_⟩
            rw [hflags]
            exact hc
          · have hwd : decide (data.getD 0 0 + 256 * data.getD 1 0 = 0x671C) = false :=
              decide_eq_false hC
            rw [hwd] at hgo
            have hnone := param_decode_go_no_defaults (data.drop 6).length (data.drop 6) []
              { params := [], defaults := none } 0 pdx countx hgo
            rw [hds] at hnone
            exact absurd hnone (by simp)

theorem param_decode_defaults_parallel_witness :
    (ftp_param_decode paramBlob = some paramBlobDecoded ∧
      paramBlobDecoded.defaults =
        some [{ name := [65, 66, 67], value := [0, 0, 128, 63], ptype := 4 }]) ∧
    (([{ name := [65, 66, 67], value := [0, 0, 128, 63], ptype := 4 }] : List PEntry).length =
        paramBlobDecoded.params.length ∧
      ∀ (i : Nat) (h1 : i < paramBlobDecoded.params.length)
        (h2 : i < ([{ name := [65, 66, 67], value := [0, 0, 128, 63], ptype := 4 }] :
          List PEntry).length),
        (paramBlobDecoded.params.get ⟨i, h1⟩).name =
          (([{ name := [65, 66, 67], value := [0, 0, 128, 63], ptype := 4 }] :
            List PEntry).get ⟨i, h2⟩).name ∧
        (paramBlobDecoded.params.get ⟨i, h1⟩).ptype =
          (([{ name := [65, 66, 67], value := [0, 0, 128, 63], ptype := 4 }] :
            List PEntry).get ⟨i, h2⟩).ptype ∧
        ((ftp_param_decode_flags paramBlob).getD i true = false →
          (paramBlobDecoded.params.get ⟨i, h1⟩).value =
            (([{ name := [65, 66, 67], value := [0, 0, 128, 63], ptype := 4 }] :
              List PEntry).get ⟨i, h2⟩).value)) :=
  ⟨⟨by decide, rfl⟩,
    param_decode_defaults_parallel paramBlob paramBlobDecoded
      [{ name := [65, 66, 67], value := [0, 0, 128, 63], ptype := 4 }] (by decide) rfl⟩
